import Mathlib

/-!
Shallow embedding of the life-planner goal/plan engine
(`src/server/app` of the repository), together with theorems checking the
natural-language specification against it.

The embedding translates:
* `app/services/plan_service.py` — `PlanService.modify_plan_with_agent`
  and `PlanService.tweak_plan_with_ai`;
* `app/agents/coach_agent.py` — the `create_plan` / `modify_plan` tool
  branches of `CoachingAgent._parse_response`;
* `app/api/routes/plan.py` — `accept_plan`, `tweak_plan`,
  `update_step_completion`, `complete_goal`.

External generative calls (`client.chat.completions.create` followed by
`json.loads`) are modelled by an oracle of type `Except String PlanDict`:
`.ok d` is a parsed JSON reply, `.error e` is a failed or unparseable call
(the `except` branch of the surrounding `try`).
-/

namespace LifePlanner

/-- A plan step as stored in the `steps` JSON column:
`{id, title, description, duration, completed}`. -/
structure Step where
  id : Nat
  title : String
  description : String
  duration : String
  completed : Bool
deriving Repr, DecidableEq

/-- Lifecycle stage of a goal (the `goals.status` string column). -/
inductive Stage where
  | onboarding
  | confirming
  | pending_acceptance
  | active
  | completed
deriving Repr, DecidableEq

/-- Status of a stored plan (the `plans.status` string column). -/
inductive PlanStatus where
  | pending_acceptance
  | accepted
deriving Repr, DecidableEq

/-- A row of the `plans` table (the columns the engine reads and writes). -/
structure StoredPlan where
  title : String
  steps : List Step
  total_steps : Nat
  status : PlanStatus
deriving Repr, DecidableEq

/-- A row of the `goals` table (the columns the engine reads and writes). -/
structure Goal where
  coach_name : String
  goal_description : String
  stage : Stage
  current_step : Nat
deriving Repr, DecidableEq

/-- The per-goal persistent state: the goal row and its (at most one) plan
row.  All routes operate on one goal at a time. -/
structure GoalState where
  goal : Goal
  plan : Option StoredPlan
deriving Repr, DecidableEq

/-- A parsed JSON plan-shaped dict with every key optional; used for the
`create_plan` tool output, for the generative producer replies, and for the
result of `tweak_plan_with_ai` (Python accesses all of these only through
`.get(key, default)`). -/
structure PlanDict where
  title : Option String
  coach_name : Option String
  goal : Option String
  steps : Option (List Step)
  total_steps : Option Nat
  modification_note : Option String
deriving Repr, DecidableEq

/-- The `current_plan` dict built at the call sites of
`modify_plan_with_agent` / `tweak_plan_with_ai`: these five keys are always
present; `modification_note` is added by the service on return. -/
structure PlanData where
  title : String
  coach_name : String
  goal : String
  steps : List Step
  total_steps : Nat
  modification_note : Option String
deriving Repr, DecidableEq

/-! ## String helpers used by the Python code -/

/-- Python `s.lower()` (ASCII case folding, which is all the code needs). -/
def lowerChars (s : List Char) : List Char := s.map Char.toLower

/-- Python `s.strip()`. -/
def stripChars (s : List Char) : List Char :=
  ((s.dropWhile Char.isWhitespace).reverse.dropWhile Char.isWhitespace).reverse

/-- Python `needle in haystack` for strings (substring test). -/
def strContains (haystack needle : List Char) : Bool :=
  match haystack with
  | [] => needle.isEmpty
  | _ :: rest => needle.isPrefixOf haystack || strContains rest needle

/-- Python `"skip" in modification_request.lower()`
(`plan_service.py` line 41). -/
def containsSkip (request : String) : Bool :=
  strContains (lowerChars request.toList) "skip".toList

/-- The maximal digit run starting at the head of the list. -/
def digitsRun : List Char → List Char
  | [] => []
  | c :: cs => if c.isDigit then c :: digitsRun cs else []

/-- The first maximal digit run in the list, if any
(the first match of `re.findall` with a digit-run pattern). -/
def firstDigitRun : List Char → Option (List Char)
  | [] => none
  | c :: cs => if c.isDigit then some (c :: digitsRun cs) else firstDigitRun cs

/-- Python `int(ds)` on a digit string. -/
def digitsToNat (ds : List Char) : Nat :=
  ds.foldl (fun acc c => 10 * acc + (c.toNat - '0'.toNat)) 0

/-- `int(numbers[0])` for the first digit run of the request, if digits occur
(`plan_service.py` lines 43 and 44). -/
def firstIntLit (s : String) : Option Nat :=
  (firstDigitRun s.toList).map digitsToNat

/-! ## StepList primitives -/

/-- Python `for idx, step in enumerate(steps, n): step["id"] = idx`,
functionally: reassign ids `n, n+1, ...` in order. -/
def renumberFrom (n : Nat) : List Step → List Step
  | [] => []
  | s :: rest => { s with id := n } :: renumberFrom (n + 1) rest

/-- Renumbering with ids starting at 1, as every call site does. -/
def renumber (steps : List Step) : List Step := renumberFrom 1 steps

/-- Python `[step for step in steps if step.get("completed", False)]`. -/
def completedOf (steps : List Step) : List Step :=
  steps.filter (fun s => s.completed)

/-- Python `[step for step in steps if not step.get("completed", False)]`. -/
def remainingOf (steps : List Step) : List Step :=
  steps.filter (fun s => !s.completed)

/-- Setting `completed = False` on every step of a candidate list, as the
tweak route does (`plan.py` line 152). -/
def forceIncomplete (steps : List Step) : List Step :=
  steps.map (fun s => { s with completed := false })

/-! ## `PlanService.modify_plan_with_agent` (`plan_service.py` lines 29-158) -/

/-- The note attached by the skip branch:
`f"Skipped {skip_count} remaining steps as requested"`. -/
def skipNote (skip_count : Nat) : String :=
  "Skipped " ++ toString skip_count ++ " remaining steps as requested"

/-- Embedding of `PlanService.modify_plan_with_agent`.  The `oracle`
argument stands for the OpenAI round-trip plus `json.loads`; the
`current_step` parameter is accepted and unused, exactly as in the Python
signature. -/
def modify_plan_with_agent (oracle : Except String PlanDict)
    (modification_request : String) (current_plan : PlanData)
    (current_step : Nat) (goal_description : String) : PlanData :=
  let _ := current_step
  if containsSkip modification_request then
    let skip_count := (firstIntLit modification_request).getD 1
    let completed_steps := completedOf current_plan.steps
    let remaining_steps := remainingOf current_plan.steps
    let new_steps :=
      if remaining_steps ≠ [] ∧ skip_count > 0 then
        if skip_count ≥ remaining_steps.length then
          completed_steps ++ []
        else
          completed_steps ++ remaining_steps.drop skip_count
      else
        current_plan.steps
    let new_steps := renumber new_steps
    { current_plan with
      steps := new_steps
      total_steps := new_steps.length
      modification_note := some (skipNote skip_count) }
  else
    let completed_steps := completedOf current_plan.steps
    let remaining_steps := remainingOf current_plan.steps
    if remaining_steps = [] then
      { current_plan with
        modification_note := some "All steps are completed. Cannot modify completed plan." }
    else
      match oracle with
      | .error e =>
        { current_plan with
          modification_note := some ("Could not apply modification: " ++ e) }
      | .ok modified_plan =>
        let all_steps := renumber (completed_steps ++ modified_plan.steps.getD [])
        { title := modified_plan.title.getD current_plan.title
          coach_name := modified_plan.coach_name.getD current_plan.coach_name
          goal := modified_plan.goal.getD
            (if goal_description ≠ "" then goal_description else current_plan.goal)
          steps := all_steps
          total_steps := all_steps.length
          modification_note :=
            some (modified_plan.modification_note.getD "Plan updated based on your request") }

/-- Embedding of `PlanService.tweak_plan_with_ai`: on success the parsed
JSON dict is returned as-is; on failure `{**current_plan,
"modification_note": f"Could not apply modification: {e}"}`. -/
def tweak_plan_with_ai (oracle : Except String PlanDict)
    (tweak_message : String) (current_plan : PlanData)
    (goal_description : String) : PlanDict :=
  let _ := tweak_message
  let _ := goal_description
  match oracle with
  | .ok modified_plan => modified_plan
  | .error e =>
    { title := some current_plan.title
      coach_name := some current_plan.coach_name
      goal := some current_plan.goal
      steps := some current_plan.steps
      total_steps := some current_plan.total_steps
      modification_note := some ("Could not apply modification: " ++ e) }

/-! ## Chat-driven tool handling (`coach_agent.py`, `_parse_response`) -/

/-- The result dict of the `modify_plan` tool (`tools.py` line 59): only the
`modification_request` key is read, through `.get(..., "")`; a `json.loads`
failure yields `{}`, i.e. `none`. -/
structure ModifyToolResult where
  modification_request : Option String
deriving Repr, DecidableEq

/-- Python `tool_result.get("modification_request", "").strip().lower()`
(`coach_agent.py` line 199). -/
def normalizeRequest (s : String) : List Char :=
  lowerChars (stripChars s.toList)

/-- An apostrophe character, for the keyword list below. -/
def apos : Char := Char.ofNat 39

/-- The fixed `show_only_keywords` list of `coach_agent.py` lines 202-210. -/
def show_only_keywords : List (List Char) :=
  [ "show the plan".toList
  , "show plan".toList
  , "see the plan".toList
  , "view the plan".toList
  , ['l', 'e', 't', apos, 's', ' ', 's', 'e', 'e']
  , "show me".toList
  , "display the plan".toList ]

/-- Python `is_show_only = not modification_request or any(keyword in
modification_request for keyword in show_only_keywords)`
(`coach_agent.py` line 212), on the already stripped-and-lowered request. -/
def is_show_only (modification_request : List Char) : Bool :=
  modification_request.isEmpty ||
    show_only_keywords.any (fun keyword => strContains modification_request keyword)

/-- The `plan_data` dict returned to the client by the tool branches of
`_parse_response` (the keys the claims are about). -/
structure PlanView where
  title : String
  steps : List Step
  total_steps : Nat
  status : PlanStatus
  modification_note : Option String
deriving Repr, DecidableEq

/-- Embedding of the `create_plan` branch of `CoachingAgent._parse_response`
(`coach_agent.py` lines 108-184).  With an existing plan the stored steps
become `completed ++ new`, renumbered, with no change to the completed flags
of the new steps; without one the tool output is stored as-is.  In both
branches the plan status and the goal status are set to
`pending_acceptance`. -/
def handle_create_plan (tool_result : PlanDict) (st : GoalState) : GoalState :=
  match st.plan with
  | some existing_plan =>
    let existing_steps := existing_plan.steps
    let new_steps := tool_result.steps.getD []
    let completed_steps := completedOf existing_steps
    let final_steps := renumber (completed_steps ++ new_steps)
    let newPlan : StoredPlan :=
      { title := tool_result.title.getD existing_plan.title
        steps := final_steps
        total_steps := final_steps.length
        status := .pending_acceptance }
    { goal := { st.goal with stage := .pending_acceptance }, plan := some newPlan }
  | none =>
    let newPlan : StoredPlan :=
      { title := tool_result.title.getD ("Your " ++ st.goal.goal_description ++ " Plan")
        steps := tool_result.steps.getD []
        total_steps := tool_result.total_steps.getD 0
        status := .pending_acceptance }
    { goal := { st.goal with stage := .pending_acceptance }, plan := some newPlan }

/-- Embedding of the `modify_plan` branch of `CoachingAgent._parse_response`
(`coach_agent.py` lines 186-282).  Returns the updated state together with
the `modification_note` of the returned `plan_data` (absent on the show-only
path and when no plan exists).  When the request is not show-only the plan
row gets the modified title/steps/total_steps and both the plan status and
the goal status are set to `pending_acceptance`. -/
def handle_modify_plan (oracle : Except String PlanDict)
    (tool_result : ModifyToolResult) (st : GoalState) :
    GoalState × Option PlanView :=
  match st.plan with
  | none => (st, none)
  | some plan =>
    let modification_request := normalizeRequest (tool_result.modification_request.getD "")
    if is_show_only modification_request then
      (st,
       some { title := plan.title
              steps := plan.steps
              total_steps := plan.total_steps
              status := plan.status
              modification_note := none })
    else
      let modified := modify_plan_with_agent oracle
        (tool_result.modification_request.getD "")
        { title := plan.title
          coach_name := st.goal.coach_name
          goal := st.goal.goal_description
          steps := plan.steps
          total_steps := plan.total_steps
          modification_note := none }
        st.goal.current_step st.goal.goal_description
      let newPlan : StoredPlan :=
        { title := modified.title
          steps := modified.steps
          total_steps := modified.total_steps
          status := .pending_acceptance }
      ({ goal := { st.goal with stage := .pending_acceptance }, plan := some newPlan },
       some { title := modified.title
              steps := modified.steps
              total_steps := modified.total_steps
              status := .pending_acceptance
              modification_note :=
                some (modified.modification_note.getD "Plan updated based on your request") })

/-! ## Routes (`app/api/routes/plan.py`) -/

/-- The body of the tweak endpoint.  `remaining_steps` is optional: the
route falls back to the incomplete steps of the stored plan when it is
absent or empty (`plan.py` line 114). -/
structure TweakRequest where
  tweak_message : String
  remaining_steps : Option (List Step)
deriving Repr, DecidableEq

/-- Embedding of the `tweak_plan` route (`plan.py` lines 72-193) for a goal
that exists: 404 when no plan row exists; otherwise the stored plan's
title/steps/total_steps are replaced by the reconciled result (completed
steps first, candidate steps forced incomplete, ids renumbered) and the
goal row is not written at all.  The returned string is the
`modification_note` of the response. -/
def tweak_plan (oracle : Except String PlanDict) (request : TweakRequest)
    (st : GoalState) : Except String (GoalState × String) :=
  match st.plan with
  | none => .error "No plan found for this goal"
  | some plan =>
    let all_steps := plan.steps
    let remaining_steps :=
      match request.remaining_steps with
      | some (s :: rest) => s :: rest
      | _ => all_steps.filter (fun s => !s.completed)
    let current_plan_data : PlanData :=
      { title := plan.title
        coach_name := st.goal.coach_name
        goal := st.goal.goal_description
        steps := remaining_steps
        total_steps := remaining_steps.length
        modification_note := none }
    let modified_plan :=
      tweak_plan_with_ai oracle request.tweak_message current_plan_data
        st.goal.goal_description
    let modified_remaining_steps := modified_plan.steps.getD remaining_steps
    let final_steps :=
      renumber (completedOf all_steps ++ forceIncomplete modified_remaining_steps)
    let newPlan : StoredPlan :=
      { plan with
        title := modified_plan.title.getD plan.title
        steps := final_steps
        total_steps := final_steps.length }
    .ok ({ st with plan := some newPlan },
         modified_plan.modification_note.getD "Plan updated based on your request")

/-- Embedding of the `accept_plan` route (`plan.py` lines 9-69) for a goal
that exists: 404 when no plan row exists; otherwise the plan status becomes
`accepted` and the goal status becomes `active`, with no check of the
current stage. -/
def accept_plan (st : GoalState) : Except String GoalState :=
  match st.plan with
  | none => .error "No plan found for this goal"
  | some plan =>
    .ok { goal := { st.goal with stage := .active }
          plan := some { plan with status := .accepted } }

/-- Embedding of the `complete_goal` route (`plan.py` lines 287-327) for a
goal that exists: the goal status becomes `completed` unconditionally. -/
def complete_goal (st : GoalState) : GoalState :=
  { st with goal := { st.goal with stage := .completed } }

/-- The cursor recomputation loop of `update_step_completion`
(`plan.py` lines 259-264): `idx` is the running index; the loop stops at
the first incomplete step and otherwise ends at `len(steps)`. -/
def computeCursor : List Step → Nat → Nat
  | [], idx => idx
  | s :: rest, idx => if s.completed then computeCursor rest (idx + 1) else idx

/-- The mutation loop of `update_step_completion` (`plan.py` lines 238-242):
set `completed` on the first step whose `id` matches, leave the rest
alone. -/
def setStepCompleted : List Step → Nat → Bool → List Step
  | [], _, _ => []
  | s :: rest, step_id, c =>
    if s.id = step_id then { s with completed := c } :: rest
    else s :: setStepCompleted rest step_id c

/-- Embedding of the `update_step_completion` route (`plan.py` lines
196-284) for a goal that exists: 404 when no plan row exists or when no
step carries the requested id (raised before any write, so the stored state
is untouched); otherwise the steps are written back with the flag set and,
only when `completed` is true, the goal cursor is recomputed as
`min(first incomplete index or len, len)`. -/
def update_step_completion (st : GoalState) (step_id : Nat) (completed : Bool) :
    Except String GoalState :=
  match st.plan with
  | none => .error "No plan found for this goal"
  | some plan =>
    if plan.steps.any (fun s => s.id = step_id) then
      let steps := setStepCompleted plan.steps step_id completed
      let st' : GoalState := { st with plan := some { plan with steps := steps } }
      if completed then
        .ok { st' with goal :=
          { st'.goal with current_step := min (computeCursor steps 0) steps.length } }
      else
        .ok st'
    else
      .error ("Step " ++ toString step_id ++ " not found in plan")

/-- FastAPI semantics of an `HTTPException`: the transaction is abandoned
and the stored state is whatever it was before the request. -/
def applyRoute (st : GoalState) (r : Except String GoalState) : GoalState :=
  match r with
  | .error _ => st
  | .ok st' => st'

/-! ## Lemmas about the StepList primitives -/

@[simp] theorem length_renumberFrom (n : Nat) (l : List Step) :
    (renumberFrom n l).length = l.length := by
  induction l generalizing n with
  | nil => rfl
  | cons s rest ih => simp [renumberFrom, ih]

@[simp] theorem length_renumber (l : List Step) : (renumber l).length = l.length :=
  length_renumberFrom 1 l

theorem renumberFrom_getElem (n : Nat) (l : List Step) (i : Nat) (h : i < l.length)
    (h₂ : i < (renumberFrom n l).length) :
    (renumberFrom n l)[i] = { l[i] with id := n + i } := by
  induction l generalizing n i with
  | nil => simp at h
  | cons s rest ih =>
    cases i with
    | zero => simp [renumberFrom]
    | succ i =>
      have h' : i < rest.length := by simpa using h
      have h₂' : i < (renumberFrom (n + 1) rest).length := by simpa using h'
      have harith : n + 1 + i = n + (i + 1) := by omega
      simp [renumberFrom, ih (n + 1) i h' h₂', harith]

@[simp] theorem length_forceIncomplete (l : List Step) :
    (forceIncomplete l).length = l.length := by
  simp [forceIncomplete]

theorem forceIncomplete_getElem (l : List Step) (i : Nat) (h : i < l.length)
    (h₂ : i < (forceIncomplete l).length) :
    (forceIncomplete l)[i] = { l[i] with completed := false } := by
  simp [forceIncomplete]

theorem renumber_merge_length (comp cand : List Step) :
    (renumber (comp ++ cand)).length = comp.length + cand.length := by
  simp

/-- Renumbering a merged list: position `i` inside the first block carries
the first block's entry with id `i + 1`. -/
theorem renumber_merge_prefix (comp cand : List Step) (i : Nat) (h : i < comp.length)
    (h₂ : i < (renumber (comp ++ cand)).length) :
    (renumber (comp ++ cand))[i] = { comp[i] with id := i + 1 } := by
  have h₃ : i < (comp ++ cand).length := by simp; omega
  unfold renumber
  rw [renumberFrom_getElem 1 (comp ++ cand) i h₃ (by simpa using h₃),
      List.getElem_append_left h, Nat.add_comm]

/-- Renumbering a merged list: position `comp.length + j` carries the second
block's entry `j` with id `comp.length + j + 1`. -/
theorem renumber_merge_suffix (comp cand : List Step) (j : Nat) (h : j < cand.length)
    (h₂ : comp.length + j < (renumber (comp ++ cand)).length) :
    (renumber (comp ++ cand))[comp.length + j] = { cand[j] with id := comp.length + j + 1 } := by
  have h₃ : comp.length + j < (comp ++ cand).length := by simp; omega
  unfold renumber
  rw [renumberFrom_getElem 1 (comp ++ cand) (comp.length + j) h₃ (by simpa using h₃),
      List.getElem_append_right (by omega)]
  have hidx : comp.length + j - comp.length = j := by omega
  have hid : 1 + (comp.length + j) = comp.length + j + 1 := by omega
  simp [hidx, hid]

/-! ## Lemmas about the cursor loop -/

theorem computeCursor_acc (l : List Step) (n : Nat) :
    computeCursor l n = n + computeCursor l 0 := by
  induction l generalizing n with
  | nil => simp [computeCursor]
  | cons s rest ih =>
    by_cases hs : s.completed
    · simp only [computeCursor, hs, if_pos]
      rw [ih (n + 1), ih 1]
      omega
    · simp [computeCursor, hs]

theorem computeCursor_le_length (l : List Step) : computeCursor l 0 ≤ l.length := by
  induction l with
  | nil => simp [computeCursor]
  | cons s rest ih =>
    by_cases hs : s.completed
    · simp only [computeCursor, hs, if_pos, List.length_cons]
      rw [computeCursor_acc rest 1]
      omega
    · simp [computeCursor, hs]

/-- The cursor loop computes the index of the first incomplete step, or the
length of the list when every step is completed. -/
theorem computeCursor_spec (l : List Step) :
    (computeCursor l 0 = l.length ∧ ∀ s ∈ l, s.completed = true) ∨
    ((∃ h : computeCursor l 0 < l.length, l[computeCursor l 0].completed = false) ∧
      ∀ j (hj : j < l.length), j < computeCursor l 0 → l[j].completed = true) := by
  induction l with
  | nil => exact Or.inl ⟨rfl, by simp⟩
  | cons s rest ih =>
    by_cases hs : s.completed
    · have hcur : computeCursor (s :: rest) 0 = 1 + computeCursor rest 0 := by
        simp only [computeCursor, hs, if_pos]
        exact computeCursor_acc rest 1
      rcases ih with ⟨hlen, hall⟩ | ⟨⟨hlt, hget⟩, hprev⟩
      · refine Or.inl ⟨by simp [hcur, hlen]; omega, ?_⟩
        intro t ht
        rcases List.mem_cons.mp ht with rfl | ht'
        · exact hs
        · exact hall t ht'
      · refine Or.inr ⟨⟨by simp [hcur]; omega, ?_⟩, ?_⟩
        · have hidx : computeCursor (s :: rest) 0 = computeCursor rest 0 + 1 := by omega
          simp only [hidx, List.getElem_cons_succ]
          exact hget
        · intro j hj hjlt
          cases j with
          | zero => simpa using hs
          | succ j' =>
            have : j' < computeCursor rest 0 := by omega
            have hj' : j' < rest.length := by simpa using hj
            simpa using hprev j' hj' this
    · refine Or.inr ⟨⟨by simp [computeCursor, hs], ?_⟩, ?_⟩
      · simp [computeCursor, hs]
      · intro j hj hjlt
        simp [computeCursor, hs] at hjlt

/-- Renumbering assigns ids `1..len` by position. -/
theorem renumber_getElem_id (l : List Step) (i : Nat) (h : i < (renumber l).length) :
    (renumber l)[i].id = i + 1 := by
  have h' : i < l.length := by simpa using h
  unfold renumber
  rw [renumberFrom_getElem 1 l i h' (by simpa using h')]
  simp [Nat.add_comm]

/-! ## Concrete sample data for witnesses and counterexamples -/

/-- A completed sample step. -/
def stepDone : Step :=
  { id := 1, title := "Getting Started", description := "Begin", duration := "1 day",
    completed := true }

/-- An incomplete sample step. -/
def stepTodo : Step :=
  { id := 2, title := "Practice Phase", description := "Regular practice",
    duration := "1 week", completed := false }

/-- A second incomplete sample step. -/
def stepTodo2 : Step :=
  { id := 3, title := "Mastery", description := "Achieve the goal", duration := "1 month",
    completed := false }

/-- A sample goal in the `active` stage with a nonzero cursor. -/
def goalActive : Goal :=
  { coach_name := "Aria", goal_description := "run a 10k", stage := .active,
    current_step := 1 }

/-- A sample stored plan with one completed and two remaining steps. -/
def planABC : StoredPlan :=
  { title := "Your run a 10k Journey", steps := [stepDone, stepTodo, stepTodo2],
    total_steps := 3, status := .accepted }

/-- A sample goal state owning `planABC`. -/
def stActive : GoalState := { goal := goalActive, plan := some planABC }

/-- The same plan as a `current_plan` dict for the modification service. -/
def planDataABC : PlanData :=
  { title := "Your run a 10k Journey", coach_name := "Aria", goal := "run a 10k",
    steps := [stepDone, stepTodo, stepTodo2], total_steps := 3,
    modification_note := none }

/-- A parsed JSON dict with no keys (`json.loads("{}")`-like). -/
def dictNone : PlanDict :=
  { title := none, coach_name := none, goal := none, steps := none,
    total_steps := none, modification_note := none }

/-- A sample `create_plan` tool output carrying one candidate step. -/
def toolDictTodo2 : PlanDict := { dictNone with steps := some [stepTodo2] }

/-! ## Claim theorems -/

/-- C4: a `create_plan` tool invocation on a goal that already has a plan is
processed as reconciliation — the stored steps become the renumbered merge
of the existing plan's completed steps with the candidate list, the plan
status becomes `pending_acceptance`, and the goal's stage becomes
`pending_acceptance` (the cursor is untouched). -/
theorem create_plan_reconciles (tool_result : PlanDict) (st : GoalState)
    (P : StoredPlan) (hp : st.plan = some P) :
    ∃ P₁, (handle_create_plan tool_result st).plan = some P₁ ∧
      P₁.steps = renumber (completedOf P.steps ++ tool_result.steps.getD []) ∧
      P₁.status = .pending_acceptance ∧
      (handle_create_plan tool_result st).goal.stage = .pending_acceptance ∧
      (handle_create_plan tool_result st).goal.current_step = st.goal.current_step := by
  unfold handle_create_plan
  rw [hp]
  exact ⟨_, rfl, rfl, rfl, rfl, rfl⟩

/-- Witness for `create_plan_reconciles` at a concrete state. -/
theorem create_plan_reconciles_witness :
    ∃ P₁, (handle_create_plan toolDictTodo2 stActive).plan = some P₁ ∧
      P₁.steps = renumber (completedOf planABC.steps ++ toolDictTodo2.steps.getD []) ∧
      P₁.status = .pending_acceptance ∧
      (handle_create_plan toolDictTodo2 stActive).goal.stage = .pending_acceptance ∧
      (handle_create_plan toolDictTodo2 stActive).goal.current_step
        = stActive.goal.current_step :=
  create_plan_reconciles toolDictTodo2 stActive planABC rfl

/-- C6: a `modify_plan` tool invocation whose request is empty or matches a
show-the-plan phrasing leaves the state untouched, returns exactly the
current plan, and never consults the generative producer (the result is the
same for every oracle). -/
theorem show_only_no_mutation (oracle₁ oracle₂ : Except String PlanDict)
    (tool_result : ModifyToolResult) (st : GoalState) (P : StoredPlan)
    (hp : st.plan = some P)
    (hshow : is_show_only (normalizeRequest (tool_result.modification_request.getD ""))
      = true) :
    handle_modify_plan oracle₁ tool_result st =
      (st, some { title := P.title, steps := P.steps, total_steps := P.total_steps,
                  status := P.status, modification_note := none }) ∧
    handle_modify_plan oracle₁ tool_result st = handle_modify_plan oracle₂ tool_result st := by
  unfold handle_modify_plan
  rw [hp]
  simp [hshow]

/-- Witness for `show_only_no_mutation` at a concrete state and request. -/
theorem show_only_no_mutation_witness :
    handle_modify_plan (.error "down") { modification_request := some "  Show me the plan " }
        stActive =
      (stActive, some { title := planABC.title, steps := planABC.steps,
                        total_steps := planABC.total_steps, status := planABC.status,
                        modification_note := none }) ∧
    handle_modify_plan (.error "down") { modification_request := some "  Show me the plan " }
        stActive =
      handle_modify_plan (.ok dictNone)
        { modification_request := some "  Show me the plan " } stActive :=
  show_only_no_mutation _ _ _ stActive planABC rfl (by decide)

/-- C8: setting the completion flag of a step id that is absent from the
plan fails with a not-found rejection and leaves the stored state untouched;
setting it for a present id succeeds. -/
theorem step_completion_miss_hit (st : GoalState) (P : StoredPlan)
    (step_id : Nat) (c : Bool) (hp : st.plan = some P) :
    ((P.steps.any (fun s => s.id = step_id)) = false →
      update_step_completion st step_id c =
        .error ("Step " ++ toString step_id ++ " not found in plan") ∧
      applyRoute st (update_step_completion st step_id c) = st) ∧
    ((P.steps.any (fun s => s.id = step_id)) = true →
      ∃ st', update_step_completion st step_id c = .ok st') := by
  constructor
  · intro hmiss
    unfold update_step_completion
    rw [hp]
    simp [hmiss, applyRoute]
  · intro hhit
    unfold update_step_completion
    rw [hp]
    simp only [hhit, if_pos]
    cases c
    · exact ⟨_, rfl⟩
    · exact ⟨_, rfl⟩

/-- Witness for `step_completion_miss_hit`: id 7 is absent from the sample
plan and the miss branch fires; ids 1..3 are present. -/
theorem step_completion_miss_hit_witness :
    ((planABC.steps.any (fun s => s.id = 7)) = false →
      update_step_completion stActive 7 true =
        .error ("Step " ++ toString 7 ++ " not found in plan") ∧
      applyRoute stActive (update_step_completion stActive 7 true) = stActive) ∧
    ((planABC.steps.any (fun s => s.id = 7)) = true →
      ∃ st', update_step_completion stActive 7 true = .ok st') :=
  step_completion_miss_hit stActive planABC 7 true rfl

/-- C9: a skip request whose first integer literal is 0 removes nothing:
when at least one remaining step exists the result is the input step list
renumbered in place, with the skip note attached; the explicit 0 is not
promoted to the default count 1. -/
theorem skip_zero_noop (oracle : Except String PlanDict) (request : String)
    (current_plan : PlanData) (current_step : Nat) (goal_description : String)
    (hskip : containsSkip request = true)
    (hzero : firstIntLit request = some 0)
    (hrem : remainingOf current_plan.steps ≠ []) :
    (modify_plan_with_agent oracle request current_plan current_step
        goal_description).steps = renumber current_plan.steps ∧
    (modify_plan_with_agent oracle request current_plan current_step
        goal_description).modification_note = some (skipNote 0) := by
  unfold modify_plan_with_agent
  simp [hskip, hzero]

/-- Witness for `skip_zero_noop` on the sample plan. -/
theorem skip_zero_noop_witness :
    (modify_plan_with_agent (.error "down") "skip 0 steps" planDataABC 1
        "run a 10k").steps = renumber planDataABC.steps ∧
    (modify_plan_with_agent (.error "down") "skip 0 steps" planDataABC 1
        "run a 10k").modification_note = some (skipNote 0) :=
  skip_zero_noop _ _ planDataABC 1 "run a 10k" (by decide) (by decide) (by decide)

/-- C10: a tweak through the dedicated endpoint writes only the plan's
title, steps and total_steps: the goal row (stage and cursor) and the plan
status are unchanged — whereas the chat-driven modify path with a
non-show-only request sets both the plan status and the goal stage to
`pending_acceptance`. -/
theorem tweak_frame (oracle : Except String PlanDict) (request : TweakRequest)
    (st : GoalState) (P : StoredPlan) (hp : st.plan = some P) :
    (∃ st' note, tweak_plan oracle request st = .ok (st', note) ∧
      st'.goal = st.goal ∧
      ∃ P', st'.plan = some P' ∧ P'.status = P.status) ∧
    (∀ (o : Except String PlanDict) (tr : ModifyToolResult),
      is_show_only (normalizeRequest (tr.modification_request.getD "")) = false →
      (handle_modify_plan o tr st).1.goal.stage = .pending_acceptance ∧
      ∃ P₂, (handle_modify_plan o tr st).1.plan = some P₂ ∧
        P₂.status = .pending_acceptance) := by
  constructor
  · unfold tweak_plan
    rw [hp]
    exact ⟨_, _, rfl, rfl, _, rfl, rfl⟩
  · intro o tr hns
    unfold handle_modify_plan
    rw [hp]
    simp [hns]

/-- A candidate step arriving already marked completed. -/
def candDone : Step :=
  { id := 9, title := "New step", description := "added", duration := "2 days",
    completed := true }

/-- A `current_plan` dict whose remaining step comes before its completed
step. -/
def planDataMixed : PlanData :=
  { title := "Mixed", coach_name := "Aria", goal := "run a 10k",
    steps := [stepTodo, stepDone], total_steps := 2, modification_note := none }

/-- C1 counterexample: the create-plan merge stores the candidate step with
its incoming `completed = true` flag intact, which differs from the forced
`completed = false` merge the claim describes. -/
theorem create_merge_keeps_candidate_flag_cex :
    ((handle_create_plan { dictNone with steps := some [candDone] } stActive).plan.map
        (fun p => p.steps))
      = some (renumber (completedOf planABC.steps ++ [candDone])) ∧
    renumber (completedOf planABC.steps ++ [candDone]) ≠
      renumber (completedOf planABC.steps ++ forceIncomplete [candDone]) := by
  decide

/-- C1 amended: both merges place the existing plan's completed steps first
with ids `1..k` and the candidate steps after them with ids `k+1..k+|C|`;
the tweak merge forces every candidate step to `completed = false`, while
the create merge keeps each candidate step's incoming completed flag. -/
theorem reconcile_prefix_suffix (st : GoalState) (P : StoredPlan)
    (tool_result : PlanDict) (ai : PlanDict) (request : TweakRequest)
    (Ctw : List Step) (hp : st.plan = some P) (hai : ai.steps = some Ctw) :
    (∃ P₁, (handle_create_plan tool_result st).plan = some P₁ ∧
      P₁.steps.length
        = (completedOf P.steps).length + (tool_result.steps.getD []).length ∧
      (∀ i (h : i < (completedOf P.steps).length) (h₂ : i < P₁.steps.length),
        P₁.steps[i] = { (completedOf P.steps)[i] with id := i + 1 }) ∧
      (∀ j (h : j < (tool_result.steps.getD []).length)
          (h₂ : (completedOf P.steps).length + j < P₁.steps.length),
        P₁.steps[(completedOf P.steps).length + j]
          = { (tool_result.steps.getD [])[j] with
              id := (completedOf P.steps).length + j + 1 })) ∧
    (∃ st₂ note P₂, tweak_plan (.ok ai) request st = .ok (st₂, note) ∧
      st₂.plan = some P₂ ∧
      P₂.steps.length = (completedOf P.steps).length + Ctw.length ∧
      (∀ i (h : i < (completedOf P.steps).length) (h₂ : i < P₂.steps.length),
        P₂.steps[i] = { (completedOf P.steps)[i] with id := i + 1 }) ∧
      (∀ j (h : j < Ctw.length)
          (h₂ : (completedOf P.steps).length + j < P₂.steps.length),
        P₂.steps[(completedOf P.steps).length + j]
          = { Ctw[j] with
                id := (completedOf P.steps).length + j + 1,
                completed := false })) := by
  constructor
  · have hcreate : (handle_create_plan tool_result st).plan
        = some { title := tool_result.title.getD P.title,
                 steps := renumber (completedOf P.steps ++ tool_result.steps.getD []),
                 total_steps :=
                   (renumber (completedOf P.steps ++ tool_result.steps.getD [])).length,
                 status := .pending_acceptance } := by
      unfold handle_create_plan
      rw [hp]
    refine ⟨_, hcreate, by simp, ?_, ?_⟩
    · intro i h h₂
      exact renumber_merge_prefix _ _ i h h₂
    · intro j h h₂
      exact renumber_merge_suffix _ _ j h h₂
  · unfold tweak_plan
    rw [hp]
    simp only [tweak_plan_with_ai, hai, Option.getD_some]
    refine ⟨_, _, _, rfl, rfl, by simp, ?_, ?_⟩
    · intro i h h₂
      exact renumber_merge_prefix _ _ i h h₂
    · intro j h h₂
      have hf : j < (forceIncomplete Ctw).length := by simpa using h
      rw [renumber_merge_suffix (completedOf P.steps) (forceIncomplete Ctw) j hf h₂,
          forceIncomplete_getElem Ctw j h hf]

/-- Witness for `reconcile_prefix_suffix` at a concrete state. -/
theorem reconcile_prefix_suffix_witness :
    (∃ P₁, (handle_create_plan toolDictTodo2 stActive).plan = some P₁ ∧
      P₁.steps.length
        = (completedOf planABC.steps).length + (toolDictTodo2.steps.getD []).length ∧
      (∀ i (h : i < (completedOf planABC.steps).length) (h₂ : i < P₁.steps.length),
        P₁.steps[i] = { (completedOf planABC.steps)[i] with id := i + 1 }) ∧
      (∀ j (h : j < (toolDictTodo2.steps.getD []).length)
          (h₂ : (completedOf planABC.steps).length + j < P₁.steps.length),
        P₁.steps[(completedOf planABC.steps).length + j]
          = { (toolDictTodo2.steps.getD [])[j] with
              id := (completedOf planABC.steps).length + j + 1 })) ∧
    (∃ st₂ note P₂, tweak_plan (.ok toolDictTodo2)
        { tweak_message := "swap the practice step", remaining_steps := none } stActive
        = .ok (st₂, note) ∧
      st₂.plan = some P₂ ∧
      P₂.steps.length = (completedOf planABC.steps).length + [stepTodo2].length ∧
      (∀ i (h : i < (completedOf planABC.steps).length) (h₂ : i < P₂.steps.length),
        P₂.steps[i] = { (completedOf planABC.steps)[i] with id := i + 1 }) ∧
      (∀ j (h : j < [stepTodo2].length)
          (h₂ : (completedOf planABC.steps).length + j < P₂.steps.length),
        P₂.steps[(completedOf planABC.steps).length + j]
          = { [stepTodo2][j] with
                id := (completedOf planABC.steps).length + j + 1,
                completed := false })) :=
  reconcile_prefix_suffix stActive planABC toolDictTodo2 toolDictTodo2
    { tweak_message := "swap the practice step", remaining_steps := none }
    [stepTodo2] rfl rfl

/-- C2 counterexample: `skip 0` on a list whose remaining step precedes its
completed step returns the original order (only renumbered), not the
completed-prefix partition the claim describes. -/
theorem skip_zero_order_cex :
    (modify_plan_with_agent (.error "down") "skip 0" planDataMixed 0 "run a 10k").steps
      = renumber planDataMixed.steps ∧
    (modify_plan_with_agent (.error "down") "skip 0" planDataMixed 0 "run a 10k").steps ≠
      renumber (completedOf planDataMixed.steps ++
        (remainingOf planDataMixed.steps).drop 0) := by
  decide

/-- C2 amended: a skip request parses the first integer literal (default 1);
when the count is positive and a remaining step exists the result is the
completed steps followed by the remaining partition with its first `count`
entries dropped, renumbered; when the count is 0 or nothing remains, the
list is returned in its original order, only renumbered; ids always end up
`1..len`, the skip note is attached, and the generative producer is never
consulted. -/
theorem skip_amended (o₁ o₂ : Except String PlanDict) (r : String) (p : PlanData)
    (cs : Nat) (g : String) (hskip : containsSkip r = true) :
    ((firstIntLit r).getD 1 > 0 → remainingOf p.steps ≠ [] →
      (modify_plan_with_agent o₁ r p cs g).steps
        = renumber (completedOf p.steps ++
            (remainingOf p.steps).drop ((firstIntLit r).getD 1))) ∧
    (((firstIntLit r).getD 1 = 0 ∨ remainingOf p.steps = []) →
      (modify_plan_with_agent o₁ r p cs g).steps = renumber p.steps) ∧
    (∀ i (h : i < (modify_plan_with_agent o₁ r p cs g).steps.length),
      ((modify_plan_with_agent o₁ r p cs g).steps[i]).id = i + 1) ∧
    (modify_plan_with_agent o₁ r p cs g).modification_note
      = some (skipNote ((firstIntLit r).getD 1)) ∧
    modify_plan_with_agent o₁ r p cs g = modify_plan_with_agent o₂ r p cs g := by
  unfold modify_plan_with_agent
  simp only [hskip, if_true]
  refine ⟨?_, ?_, ?_, by trivial, by trivial⟩
  · intro hpos hne
    rw [if_pos ⟨hne, hpos⟩]
    by_cases hge : (firstIntLit r).getD 1 ≥ (remainingOf p.steps).length
    · rw [if_pos hge, List.drop_eq_nil_of_le hge]
    · rw [if_neg hge]
  · intro hz
    rw [if_neg ?_]
    rintro ⟨hne, hpos⟩
    rcases hz with hz | hz
    · omega
    · exact hne hz
  · intro i h
    exact renumber_getElem_id _ i h

/-- Witness for `skip_amended` on the sample plan with `skip 2`. -/
theorem skip_amended_witness :
    ((firstIntLit "skip 2 steps").getD 1 > 0 → remainingOf planDataABC.steps ≠ [] →
      (modify_plan_with_agent (.error "down") "skip 2 steps" planDataABC 1
          "run a 10k").steps
        = renumber (completedOf planDataABC.steps ++
            (remainingOf planDataABC.steps).drop ((firstIntLit "skip 2 steps").getD 1))) ∧
    (((firstIntLit "skip 2 steps").getD 1 = 0 ∨ remainingOf planDataABC.steps = []) →
      (modify_plan_with_agent (.error "down") "skip 2 steps" planDataABC 1
          "run a 10k").steps = renumber planDataABC.steps) ∧
    (∀ i (h : i < (modify_plan_with_agent (.error "down") "skip 2 steps" planDataABC 1
        "run a 10k").steps.length),
      ((modify_plan_with_agent (.error "down") "skip 2 steps" planDataABC 1
        "run a 10k").steps[i]).id = i + 1) ∧
    (modify_plan_with_agent (.error "down") "skip 2 steps" planDataABC 1
        "run a 10k").modification_note
      = some (skipNote ((firstIntLit "skip 2 steps").getD 1)) ∧
    modify_plan_with_agent (.error "down") "skip 2 steps" planDataABC 1 "run a 10k"
      = modify_plan_with_agent (.ok dictNone) "skip 2 steps" planDataABC 1 "run a 10k" :=
  skip_amended (.error "down") (.ok dictNone) "skip 2 steps" planDataABC 1 "run a 10k"
    (by decide)

/-- A modification request that is neither a skip nor show-only. -/
def trAdd : ModifyToolResult := { modification_request := some "add a stretching step" }

/-- C3 counterexample: when the generative call fails, the chat-driven
modify path still moves the goal from `active` to `pending_acceptance`,
although it does leave the steps unchanged. -/
theorem modify_failure_stage_cex :
    (handle_modify_plan (.error "boom") trAdd stActive).1.goal.stage
      = Stage.pending_acceptance ∧
    stActive.goal.stage = Stage.active ∧
    ((handle_modify_plan (.error "boom") trAdd stActive).1.plan.map (fun p => p.steps))
      = some planABC.steps := by
  decide

/-- C3 amended: on generative failure both modification paths return the
existing steps with a non-empty failure note and no exception; the tweak
endpoint leaves the goal row and the plan status unchanged (steps only
rewritten to the completed-prefix renumbering of themselves), but the
chat-driven modify path sets the plan status and the goal stage to
`pending_acceptance` even though nothing was modified. -/
theorem generative_failure_amended (e : String) (tr : ModifyToolResult)
    (st : GoalState) (P : StoredPlan) (req : TweakRequest)
    (hp : st.plan = some P)
    (hshow : is_show_only (normalizeRequest (tr.modification_request.getD ""))
      = false)
    (hskip : containsSkip (tr.modification_request.getD "") = false)
    (hrem : remainingOf P.steps ≠ [])
    (hreq : req.remaining_steps = none) :
    (∃ P₁, (handle_modify_plan (.error e) tr st).1.plan = some P₁ ∧
      P₁.steps = P.steps ∧ P₁.status = .pending_acceptance) ∧
    (handle_modify_plan (.error e) tr st).1.goal.stage = .pending_acceptance ∧
    (handle_modify_plan (.error e) tr st).1.goal.current_step
      = st.goal.current_step ∧
    (handle_modify_plan (.error e) tr st).2
      = some { title := P.title, steps := P.steps, total_steps := P.total_steps,
               status := .pending_acceptance,
               modification_note := some ("Could not apply modification: " ++ e) } ∧
    (∃ st₂ note, tweak_plan (.error e) req st = .ok (st₂, note) ∧
      st₂.goal = st.goal ∧
      note = "Could not apply modification: " ++ e ∧
      ∃ P₂, st₂.plan = some P₂ ∧ P₂.status = P.status ∧
        P₂.steps = renumber (completedOf P.steps ++
          forceIncomplete (remainingOf P.steps))) := by
  have hmod : modify_plan_with_agent (.error e) (tr.modification_request.getD "")
      { title := P.title, coach_name := st.goal.coach_name,
        goal := st.goal.goal_description, steps := P.steps,
        total_steps := P.total_steps, modification_note := none }
      st.goal.current_step st.goal.goal_description
      = { title := P.title, coach_name := st.goal.coach_name,
          goal := st.goal.goal_description, steps := P.steps,
          total_steps := P.total_steps,
          modification_note := some ("Could not apply modification: " ++ e) } := by
    unfold modify_plan_with_agent
    simp [hskip, hrem]
  constructor
  · unfold handle_modify_plan
    rw [hp]
    simp only [hshow, Bool.false_eq_true, if_false, hmod, Option.getD_some]
    exact ⟨_, rfl, rfl, rfl⟩
  refine ⟨?_, ?_, ?_, ?_⟩
  · unfold handle_modify_plan
    rw [hp]
    simp only [hshow, Bool.false_eq_true, if_false, hmod, Option.getD_some]
  · unfold handle_modify_plan
    rw [hp]
    simp only [hshow, Bool.false_eq_true, if_false, hmod, Option.getD_some]
  · unfold handle_modify_plan
    rw [hp]
    simp only [hshow, Bool.false_eq_true, if_false, hmod, Option.getD_some]
  · unfold tweak_plan
    rw [hp, hreq]
    simp only [tweak_plan_with_ai, Option.getD_some]
    exact ⟨_, _, rfl, rfl, rfl, _, rfl, rfl, rfl⟩

/-- Witness for `generative_failure_amended` at a concrete state. -/
theorem generative_failure_amended_witness :
    (∃ P₁, (handle_modify_plan (.error "boom") trAdd stActive).1.plan = some P₁ ∧
      P₁.steps = planABC.steps ∧ P₁.status = .pending_acceptance) ∧
    (handle_modify_plan (.error "boom") trAdd stActive).1.goal.stage
      = .pending_acceptance ∧
    (handle_modify_plan (.error "boom") trAdd stActive).1.goal.current_step
      = stActive.goal.current_step ∧
    (handle_modify_plan (.error "boom") trAdd stActive).2
      = some { title := planABC.title, steps := planABC.steps,
               total_steps := planABC.total_steps,
               status := .pending_acceptance,
               modification_note :=
                 some ("Could not apply modification: " ++ "boom") } ∧
    (∃ st₂ note, tweak_plan (.error "boom")
        { tweak_message := "shuffle things", remaining_steps := none } stActive
        = .ok (st₂, note) ∧
      st₂.goal = stActive.goal ∧
      note = "Could not apply modification: " ++ "boom" ∧
      ∃ P₂, st₂.plan = some P₂ ∧ P₂.status = planABC.status ∧
        P₂.steps = renumber (completedOf planABC.steps ++
          forceIncomplete (remainingOf planABC.steps))) :=
  generative_failure_amended "boom" trAdd stActive planABC
    { tweak_message := "shuffle things", remaining_steps := none }
    rfl (by decide) (by decide) (by decide) rfl

/-- A plan whose single step is completed, owned by a goal with cursor 1. -/
def planDoneOnly : StoredPlan :=
  { title := "Done", steps := [stepDone], total_steps := 1, status := .accepted }

/-- A goal state used by the cursor counterexample. -/
def stDoneOnly : GoalState := { goal := goalActive, plan := some planDoneOnly }

/-- C5 counterexample: marking a step incomplete does not recompute the
cursor — after un-completing the only step, the cursor stays at 1 although
the first incomplete index of the updated list is 0. -/
theorem cursor_not_recomputed_cex :
    (applyRoute stDoneOnly (update_step_completion stDoneOnly 1 false)).goal.current_step
      = 1 ∧
    (applyRoute stDoneOnly (update_step_completion stDoneOnly 1 false)).plan
      = some { planDoneOnly with steps := [{ stepDone with completed := false }] } ∧
    computeCursor [{ stepDone with completed := false }] 0 = 0 := by
  decide

/-- C5 amended: marking a step completed recomputes the cursor to the index
of the first incomplete step of the updated list, or to its length when
every step is completed; marking a step incomplete writes the step but
leaves the cursor untouched. -/
theorem cursor_recompute_amended (st : GoalState) (P : StoredPlan) (step_id : Nat)
    (hp : st.plan = some P)
    (hk : (P.steps.any (fun s => s.id = step_id)) = true) :
    (∃ st₁, update_step_completion st step_id true = .ok st₁ ∧
      st₁.plan = some { P with steps := setStepCompleted P.steps step_id true } ∧
      ((st₁.goal.current_step = (setStepCompleted P.steps step_id true).length ∧
          ∀ s ∈ setStepCompleted P.steps step_id true, s.completed = true) ∨
        ((∃ h : st₁.goal.current_step
              < (setStepCompleted P.steps step_id true).length,
            ((setStepCompleted P.steps step_id true)[st₁.goal.current_step]).completed
              = false) ∧
          ∀ j (hj : j < (setStepCompleted P.steps step_id true).length),
            j < st₁.goal.current_step →
              ((setStepCompleted P.steps step_id true)[j]).completed = true))) ∧
    (∃ st₂, update_step_completion st step_id false = .ok st₂ ∧
      st₂.goal.current_step = st.goal.current_step ∧
      st₂.plan = some { P with steps := setStepCompleted P.steps step_id false }) := by
  constructor
  · unfold update_step_completion
    rw [hp]
    simp only [hk, if_pos, if_true]
    refine ⟨_, rfl, rfl, ?_⟩
    have hmin : min (computeCursor (setStepCompleted P.steps step_id true) 0)
        (setStepCompleted P.steps step_id true).length
        = computeCursor (setStepCompleted P.steps step_id true) 0 :=
      Nat.min_eq_left (computeCursor_le_length _)
    simp only [hmin]
    exact computeCursor_spec _
  · unfold update_step_completion
    rw [hp]
    simp only [hk, if_pos, Bool.false_eq_true, if_false]
    exact ⟨_, rfl, rfl, rfl⟩

/-- Witness for `cursor_recompute_amended` at a concrete state and step. -/
theorem cursor_recompute_amended_witness :
    (∃ st₁, update_step_completion stActive 2 true = .ok st₁ ∧
      st₁.plan = some { planABC with steps := setStepCompleted planABC.steps 2 true } ∧
      ((st₁.goal.current_step = (setStepCompleted planABC.steps 2 true).length ∧
          ∀ s ∈ setStepCompleted planABC.steps 2 true, s.completed = true) ∨
        ((∃ h : st₁.goal.current_step
              < (setStepCompleted planABC.steps 2 true).length,
            ((setStepCompleted planABC.steps 2 true)[st₁.goal.current_step]).completed
              = false) ∧
          ∀ j (hj : j < (setStepCompleted planABC.steps 2 true).length),
            j < st₁.goal.current_step →
              ((setStepCompleted planABC.steps 2 true)[j]).completed = true))) ∧
    (∃ st₂, update_step_completion stActive 2 false = .ok st₂ ∧
      st₂.goal.current_step = stActive.goal.current_step ∧
      st₂.plan = some { planABC with
        steps := setStepCompleted planABC.steps 2 false }) :=
  cursor_recompute_amended stActive planABC 2 rfl (by decide)

/-- A goal state whose goal is already in the `completed` stage. -/
def stCompleted : GoalState :=
  { goal := { goalActive with stage := .completed }, plan := some planABC }

/-- C7 counterexample: `accept_plan` on a goal in the `completed` stage
succeeds and moves it to `active`, so `completed` is not terminal. -/
theorem completed_not_terminal_cex :
    stCompleted.goal.stage = Stage.completed ∧
    (applyRoute stCompleted (accept_plan stCompleted)).goal.stage = Stage.active ∧
    (applyRoute stCompleted (accept_plan stCompleted)).plan
      = some { planABC with status := .accepted } := by
  decide

/-- C7 amended: no stage guard protects `completed` — `accept_plan` on a
completed goal with a plan yields stage `active` and a chat `create_plan`
yields `pending_acceptance`; only `complete_goal` and the tweak endpoint
leave the stage at `completed`. -/
theorem completed_not_terminal (st : GoalState) (P : StoredPlan)
    (tool_result : PlanDict)
    (hstage : st.goal.stage = .completed) (hp : st.plan = some P) :
    (∃ st₁, accept_plan st = .ok st₁ ∧ st₁.goal.stage = .active) ∧
    (handle_create_plan tool_result st).goal.stage = .pending_acceptance ∧
    (complete_goal st).goal.stage = .completed ∧
    (∀ oracle request st₂ note, tweak_plan oracle request st = .ok (st₂, note) →
      st₂.goal.stage = .completed) := by
  refine ⟨?_, ?_, rfl, ?_⟩
  · unfold accept_plan
    rw [hp]
    exact ⟨_, rfl, rfl⟩
  · unfold handle_create_plan
    rw [hp]
  · intro oracle request st₂ note hok
    unfold tweak_plan at hok
    rw [hp] at hok
    cases hok
    exact hstage

/-- Witness for `completed_not_terminal` at a concrete completed goal. -/
theorem completed_not_terminal_witness :
    (∃ st₁, accept_plan stCompleted = .ok st₁ ∧ st₁.goal.stage = .active) ∧
    (handle_create_plan toolDictTodo2 stCompleted).goal.stage = .pending_acceptance ∧
    (complete_goal stCompleted).goal.stage = .completed ∧
    (∀ oracle request st₂ note,
      tweak_plan oracle request stCompleted = .ok (st₂, note) →
      st₂.goal.stage = .completed) :=
  completed_not_terminal stCompleted planABC toolDictTodo2 rfl rfl

/-- Witness for `tweak_frame` at a concrete state. -/
theorem tweak_frame_witness :
    (∃ st' note, tweak_plan (.error "down")
        { tweak_message := "make it easier", remaining_steps := none } stActive
        = .ok (st', note) ∧
      st'.goal = stActive.goal ∧
      ∃ P', st'.plan = some P' ∧ P'.status = planABC.status) ∧
    (∀ (o : Except String PlanDict) (tr : ModifyToolResult),
      is_show_only (normalizeRequest (tr.modification_request.getD "")) = false →
      (handle_modify_plan o tr stActive).1.goal.stage = .pending_acceptance ∧
      ∃ P₂, (handle_modify_plan o tr stActive).1.plan = some P₂ ∧
        P₂.status = .pending_acceptance) :=
  tweak_frame _ _ stActive planABC rfl

end LifePlanner
